import Mathlib

/-!
Shallow embedding of the lobby access-control module
(`src/modules/xmpp/Lobby.js`).

The `Lobby` class orchestrates a main MUC room and a lobby MUC room over an
XMPP connection.  Every observable effect of the class — stanzas sent over
the connection, method calls on the two room proxies, and events emitted on
the main room's event emitter — is recorded as an explicit `Action` or
`MainEvent` value, and the asynchronous environment (IQ responses, join
results, presence events) is passed in as explicit data.  The bodies of the
event listeners that `joinLobbyRoom` registers are embedded as standalone
handler functions, since each runs only when the corresponding event is
delivered.
-/

namespace LobbyModel

/-- JavaScript truthiness of an optional string argument: an absent
(`undefined`) argument and the empty string are both falsy. -/
def jsTruthy : Option String → Bool
  | none => false
  | some s => !s.isEmpty

/-- Splits a character list at every occurrence of the separator character,
mirroring JavaScript `String.prototype.split` with a one-character
separator (always returns at least one piece). -/
def splitOnChar (c : Char) : List Char → List (List Char)
  | [] => [[]]
  | x :: xs =>
    let r := splitOnChar c xs
    if x == c then [] :: r
    else
      match r with
      | [] => [[x]]
      | h :: t => (x :: h) :: t

/-- `Strophe.getResourceFromJid`: the part of a JID after the first `/`
(slash-joined remainder), or `null` when the JID has no resource part. -/
def getResourceFromJid (jid : String) : Option String :=
  match (splitOnChar '/' jid.toList).map String.mk with
  | [] => none
  | [_] => none
  | _ :: rest => some (String.intercalate "/" rest)

/-- `Strophe.getNodeFromJid`: the part of a JID before the first `@`, or
`null` when the JID contains no `@`. -/
def getNodeFromJid (jid : String) : Option String :=
  if jid.toList.contains '@' then
    some (String.mk ((splitOnChar '@' jid.toList).headD []))
  else none

/-- A record of the lobby room's membership map; `Lobby.js` reads only the
member's full (non-room-scoped) JID, `members[roomJid].jid`. -/
structure Member where
  jid : String
deriving DecidableEq

/-- The lobby room instance created by `createRoom`.  Its `members` mapping
(room-scoped occupant JID to member record) is modelled as an association
list in `Object.keys` enumeration order. -/
structure LobbyRoomProxy where
  members : List (String × Member)
deriving DecidableEq

/-- The main (protected) room as `Lobby.js` reads it: its JID, whether this
client has joined it, and the current result of `isModerator()`. -/
structure MainRoom where
  roomjid : String
  joined : Bool
  moderator : Bool
deriving DecidableEq

/-- The XMPP handle as `Lobby.js` reads it: the lobby component address from
configuration (`none` models an absent/undefined value). -/
structure Xmpp where
  lobbyroomComponentAddress : Option String
deriving DecidableEq

/-- The fields of a `Lobby` instance.  The constructor sets `xmpp` and
`mainRoom`; `lobbyRoom` stays `undefined` (here `none`) until a
`joinLobbyRoom` call assigns it. -/
structure Lobby where
  xmpp : Xmpp
  mainRoom : MainRoom
  lobbyRoom : Option LobbyRoomProxy
deriving DecidableEq

/-- `new Lobby(room)`: stores the room's XMPP handle and the room itself;
`this.lobbyRoom` is not assigned. -/
def Lobby.construct (x : Xmpp) (room : MainRoom) : Lobby :=
  ⟨x, room, none⟩

/-- Events emitted on the main room's `eventEmitter` by this module. -/
inductive MainEvent where
  | lobbyMemberUpdated (sender : Option String) (email : String)
  | lobbyMemberJoined (sender : Option String) (nick : String) (avatar : Option String)
  | deniedAccess
deriving DecidableEq

/-- Observable effects: stanzas sent on the connection and method calls on
the two room proxies. -/
inductive Action where
  | iqConfigQuery (dest : String)
  | iqConfigSubmit (dest : String) (fields : List (String × String))
  | msgInvite (dest : String) (invitee : String)
  | kick (roomJid : String)
  | createRoom (roomName : Option String) (customDomain : Option String)
      (disableDiscoInfo disableFocus : Bool)
  | mainRoomJoin (password : Option String)
  | lobbyRoomJoin
  | lobbyRoomLeave
  | lobbyRoomClean
  | removeFromPresence (command : String)
  | addToPresence (command : String) (value : String)
  | sendPresence
deriving DecidableEq

/-- The listeners `joinLobbyRoom` registers (on the lobby room, except
`inviteMessageReceived`, which is registered on the main room). -/
inductive Listener where
  | presenceEmail
  | mucMemberJoined
  | kicked
  | inviteMessageReceived
  | mucJoined
  | roomJoinError
  | roomConnectNotAllowedError
  | roomConnectError
deriving DecidableEq

/-- Settled outcome of a promise returned by this module. -/
inductive Outcome where
  | resolved
  | rejected (e : String)
deriving DecidableEq

/-- Result of a synchronous method call that can throw. -/
inductive CallResult (α : Type) where
  | returns (a : α)
  | throws (e : String)
deriving DecidableEq

/-- Success or error response delivered to `sendIQ` callbacks. -/
inductive IQResponse (α : Type) where
  | result (a : α)
  | iqError (e : String)
deriving DecidableEq

/-- The command type for updating a lobby participant's e-mail address. -/
def EMAIL_COMMAND : String := "email"

/-- `isLobbySupported()`: `Boolean(this.xmpp.lobbyroomComponentAddress)`. -/
def isLobbySupported (s : Lobby) : Bool :=
  jsTruthy s.xmpp.lobbyroomComponentAddress

/-- Environment of a `joinLobbyRoom` call: the settled outcome of
`mainRoom.join(password)` (used only on the shared-password fast path) and
which of the lobby room's join-related events fires first (`resolved` for
MUC_JOINED, `rejected` for ROOM_JOIN_ERROR / ROOM_CONNECT_NOT_ALLOWED_ERROR /
ROOM_CONNECT_ERROR). -/
structure JoinEnv where
  mainJoinResult : Outcome
  lobbyJoinEvent : Outcome
deriving DecidableEq

/-- Everything observable about a `joinLobbyRoom` call: the controller state
after the call (and after the join settles), the actions performed, the
listeners registered, and the settled outcome of the returned promise. -/
structure JoinLobbyResult where
  state : Lobby
  actions : List Action
  listeners : List Listener
  outcome : Outcome
deriving DecidableEq

/-- `joinLobbyRoom(displayName, email, password)`.  With a truthy password
and a non-moderator caller (`mainRoom.joined && mainRoom.isModerator()`
false) it returns `mainRoom.join(password)` directly.  Otherwise it assigns
`this.lobbyRoom` to a freshly created room, sets the nickname presence when
a display name is given, registers the moderator or waiting-participant
listeners, registers the join-outcome listeners, and calls `join()`; when
MUC_JOINED fires, a non-moderator with a truthy e-mail re-sends it as a
second presence. -/
def joinLobbyRoom (s : Lobby) (displayName email password : Option String)
    (env : JoinEnv) : JoinLobbyResult :=
  let isModerator := s.mainRoom.joined && s.mainRoom.moderator
  if jsTruthy password && !isModerator then
    ⟨s, [Action.mainRoomJoin password], [], env.mainJoinResult⟩
  else
    let roomName := getNodeFromJid s.mainRoom.roomjid
    let s1 : Lobby := { s with lobbyRoom := some ⟨[]⟩ }
    let nickActions :=
      if jsTruthy displayName then
        [Action.removeFromPresence "nick",
         Action.addToPresence "nick" (displayName.getD "")]
      else []
    let roleListeners :=
      if isModerator then [Listener.presenceEmail, Listener.mucMemberJoined]
      else [Listener.kicked, Listener.inviteMessageReceived]
    let postJoinActions :=
      match env.lobbyJoinEvent with
      | Outcome.resolved =>
        if jsTruthy email && !isModerator then
          [Action.removeFromPresence EMAIL_COMMAND,
           Action.addToPresence EMAIL_COMMAND (email.getD ""),
           Action.sendPresence]
        else []
      | Outcome.rejected _ => []
    ⟨s1,
     Action.createRoom roomName s.xmpp.lobbyroomComponentAddress true true
       :: (nickActions ++ [Action.lobbyRoomJoin] ++ postJoinActions),
     roleListeners
       ++ [Listener.mucJoined, Listener.roomJoinError,
           Listener.roomConnectNotAllowedError, Listener.roomConnectError],
     env.lobbyJoinEvent⟩

/-- Result of running one registered listener: the controller state after it
(no listener body assigns any `Lobby` field), the room/connection calls it
makes, and the events it emits on the main room's emitter. -/
structure HandlerResult where
  state : Lobby
  actions : List Action
  events : List MainEvent
deriving DecidableEq

/-- Body of the KICKED listener registered on the lobby room for a waiting
participant: on a self-presence kick it emits MUC_DENIED_ACCESS on the main
room and calls `lobbyRoom.clean()`; otherwise it does nothing.  No field of
the controller is reassigned. -/
def kickedHandler (s : Lobby) (isSelfPresence : Bool) : HandlerResult :=
  if isSelfPresence then
    ⟨s, [Action.lobbyRoomClean], [MainEvent.deniedAccess]⟩
  else ⟨s, [], []⟩

/-- Body of the INVITE_MESSAGE_RECEIVED listener registered on the main room
for a waiting participant: when the invite names the main room's JID it
calls `mainRoom.join()` and then `lobbyRoom.leave()`, discarding the leave
promise's outcome (`leaveResult`) with empty then/catch handlers; otherwise
it does nothing. -/
def inviteMessageHandler (s : Lobby) (roomJid sender txt : String)
    (leaveResult : Outcome) : HandlerResult :=
  if roomJid == s.mainRoom.roomjid then
    ⟨s, [Action.mainRoomJoin none, Action.lobbyRoomLeave], []⟩
  else ⟨s, [], []⟩

/-- A parsed presence child node as delivered to presence listeners. -/
structure PresenceNode where
  tagName : String
  value : String
deriving DecidableEq

/-- The identity payload optionally carried by a member-joined event. -/
structure Identity where
  avatar : Option String
deriving DecidableEq

/-- `identity ? identity.avatar : undefined`. -/
def identityAvatar : Option Identity → Option String
  | some i => i.avatar
  | none => none

/-- Body of the `email` presence listener registered on the lobby room for a
moderator: emits MUC_LOBBY_MEMBER_UPDATED on the main room with the `sender`
argument it received and the node's value as the e-mail. -/
def emailPresenceHandler (s : Lobby) (node : PresenceNode)
    (sender : Option String) : HandlerResult :=
  ⟨s, [], [MainEvent.lobbyMemberUpdated sender node.value]⟩

/-- Body of the MUC_MEMBER_JOINED listener registered on the lobby room for
a moderator: emits MUC_LOBBY_MEMBER_JOINED on the main room with
`Strophe.getResourceFromJid(from)`, the nickname, and
`identity ? identity.avatar : undefined`. -/
def memberJoinedHandler (s : Lobby) (sender : String) (nick : String)
    (identity : Option Identity) : HandlerResult :=
  ⟨s, [],
   [MainEvent.lobbyMemberJoined (getResourceFromJid sender) nick
      (identityAvatar identity)]⟩

/-- Modelled from the spec: the chat-room abstraction (`ChatRoom`, a file of
this repository not under `src/`) dispatches a presence command node to
handlers registered with `addPresenceListener`, passing the parsed node and
the sender.  The spec states the resulting notification carries "the
sender's room-local address", so dispatch hands the handler the room-local
resource extracted from the occupant's full room JID. -/
def dispatchEmailPresence (s : Lobby) (occupantJid : String)
    (email : String) : HandlerResult :=
  emailPresenceHandler s ⟨EMAIL_COMMAND, email⟩ (getResourceFromJid occupantJid)

/-- Modelled from the spec: `ChatRoom` (not under `src/`) emits
MUC_MEMBER_JOINED to its listeners with the joining occupant's full room JID
as the sender, together with the nickname and the optional identity parsed
from the presence. -/
def dispatchMemberJoined (s : Lobby) (occupantJid : String) (nick : String)
    (identity : Option Identity) : HandlerResult :=
  memberJoinedHandler s occupantJid nick identity

/-- `denyAccess(id)`: returns silently unless lobby is supported and the
caller is a moderator; then scans `Object.keys(this.lobbyRoom.members)` for
a key whose resource equals `id` (throwing a TypeError when `lobbyRoom` is
still undefined) and kicks the matching room JID, or only logs when there is
no match.  No controller field is assigned on any path. -/
def denyAccess (s : Lobby) (id : String) : CallResult (Lobby × List Action) :=
  if !isLobbySupported s || !s.mainRoom.moderator then
    CallResult.returns (s, [])
  else
    match s.lobbyRoom with
    | none => CallResult.throws "TypeError: this.lobbyRoom is undefined"
    | some lr =>
      match lr.members.find? (fun p => getResourceFromJid p.1 == some id) with
      | some (j, _) => CallResult.returns (s, [Action.kick j])
      | none => CallResult.returns (s, [])

/-- `approveAccess(id)`: same guard and member lookup as `denyAccess`; on a
match it sends a message addressed to the main room's JID carrying an
`invite` element whose `to` attribute is the member's full JID
(`members[roomJid].jid`), or only logs when there is no match. -/
def approveAccess (s : Lobby) (id : String) : CallResult (Lobby × List Action) :=
  if !isLobbySupported s || !s.mainRoom.moderator then
    CallResult.returns (s, [])
  else
    match s.lobbyRoom with
    | none => CallResult.throws "TypeError: this.lobbyRoom is undefined"
    | some lr =>
      match lr.members.find? (fun p => getResourceFromJid p.1 == some id) with
      | some (_, m) =>
        CallResult.returns (s, [Action.msgInvite s.mainRoom.roomjid m.jid])
      | none => CallResult.returns (s, [])

/-- The MUC owner configuration form returned by the `get` query, as
`Lobby.js` inspects it: the list of its field `var` attributes. -/
structure MucOwnerForm where
  fields : List String
deriving DecidableEq

/-- Environment of an `enableLobby` call: the response to the configuration
query, the response to the configuration submission, and the environment of
the `joinLobbyRoom()` call made on successful submission. -/
structure EnableEnv where
  queryResponse : IQResponse MucOwnerForm
  submitResponse : IQResponse Unit
  joinEnv : JoinEnv

/-- The fields of the configuration submission built by `enableLobby`, in
build order: FORM_TYPE, members-only = true, and — only for a truthy
password — the lobby password field. -/
def enableLobbyFormFields (password : Option String) : List (String × String) :=
  [("FORM_TYPE", "http://jabber.org/protocol/muc#roomconfig"),
   ("muc#roomconfig_membersonly", "true")]
  ++ (if jsTruthy password then
        [("muc#roomconfig_lobbypassword", password.getD "")]
      else [])

/-- Everything observable about an `enableLobby` call. -/
structure EnableResult where
  state : Lobby
  actions : List Action
  listeners : List Listener
  outcome : Outcome
deriving DecidableEq

/-- `enableLobby(password)`: rejects at once when lobby is unsupported;
otherwise queries the MUC owner configuration form, rejects with the raw
error on a query error, rejects with the members-only configuration error
when the form lacks the `muc#roomconfig_membersonly` field (sending no
submission), and otherwise sends the submission; on a submission error it
rejects with that error, and on success it calls `joinLobbyRoom()` (all
arguments undefined) and settles exactly as that join does. -/
def enableLobby (s : Lobby) (password : Option String) (env : EnableEnv) :
    EnableResult :=
  if !isLobbySupported s then
    ⟨s, [], [], Outcome.rejected "Lobby not supported!"⟩
  else
    let queryAction := Action.iqConfigQuery s.mainRoom.roomjid
    match env.queryResponse with
    | IQResponse.iqError e => ⟨s, [queryAction], [], Outcome.rejected e⟩
    | IQResponse.result form =>
      if form.fields.contains "muc#roomconfig_membersonly" then
        let submitAction :=
          Action.iqConfigSubmit s.mainRoom.roomjid (enableLobbyFormFields password)
        match env.submitResponse with
        | IQResponse.iqError e =>
          ⟨s, [queryAction, submitAction], [], Outcome.rejected e⟩
        | IQResponse.result _ =>
          let jr := joinLobbyRoom s none none none env.joinEnv
          ⟨jr.state, queryAction :: submitAction :: jr.actions,
           jr.listeners, jr.outcome⟩
      else
        ⟨s, [queryAction], [],
         Outcome.rejected "Setting members only room not supported!"⟩

/-! Concrete sample states used by witnesses and counterexamples. -/

/-- A backend exposing a lobby component address. -/
def sampleXmpp : Xmpp := ⟨some "lobby.example"⟩

/-- A lobby membership map with one waiting member. -/
def sampleLobbyRoom : LobbyRoomProxy :=
  ⟨[("room1@lobby.example/res123", ⟨"alice@example.com/res123"⟩)]⟩

/-- A controller whose caller is a joined moderator and whose lobby room
holds one member. -/
def sampleModState : Lobby :=
  ⟨sampleXmpp, ⟨"room1@conference.example", true, true⟩, some sampleLobbyRoom⟩

/-- The same controller with a non-moderator caller. -/
def sampleNonModState : Lobby :=
  ⟨sampleXmpp, ⟨"room1@conference.example", true, false⟩, some sampleLobbyRoom⟩

/-- A freshly constructed controller for a waiting (non-moderator, not yet
joined) participant: `lobbyRoom` not yet assigned. -/
def waitingStart : Lobby :=
  ⟨sampleXmpp, ⟨"room1@conference.example", false, false⟩, none⟩

/-- C1: denyAccess/approveAccess called by a non-moderator, or with an
identifier matching no member of the (existing) lobby membership map, send
no stanza and leave the controller state unchanged; when a matching member
exists, lobby is supported and the caller is a moderator, denyAccess kicks
that member's room JID from the lobby room, and approveAccess sends an
invite message addressed to the main room naming the member's full
(non-room-scoped) JID as invitee. -/
theorem lobby_C1_deny_approve (s : Lobby) (lr : LobbyRoomProxy) (id : String)
    (hroom : s.lobbyRoom = some lr) :
    ((s.mainRoom.moderator = false ∨
        lr.members.find? (fun p => getResourceFromJid p.1 == some id) = none) →
      denyAccess s id = CallResult.returns (s, []) ∧
      approveAccess s id = CallResult.returns (s, [])) ∧
    (∀ j m, isLobbySupported s = true → s.mainRoom.moderator = true →
      lr.members.find? (fun p => getResourceFromJid p.1 == some id)
          = some (j, m) →
      denyAccess s id = CallResult.returns (s, [Action.kick j]) ∧
      approveAccess s id
          = CallResult.returns (s, [Action.msgInvite s.mainRoom.roomjid m.jid])) := by
  constructor
  · rintro (hmod | hfind)
    · constructor <;> simp [denyAccess, approveAccess, hmod]
    · constructor
      · unfold denyAccess
        split
        · rfl
        · rw [hroom]
          simp [hfind]
      · unfold approveAccess
        split
        · rfl
        · rw [hroom]
          simp [hfind]
  · intro j m hsup hmod hfind
    constructor
    · simp [denyAccess, hsup, hmod, hroom, hfind]
    · simp [approveAccess, hsup, hmod, hroom, hfind]

/-- Witness for C1: both branches exercised at concrete states — a joined
moderator denying and approving the waiting member, and a non-moderator for
whom both calls are no-ops. -/
theorem lobby_C1_witness :
    sampleModState.lobbyRoom = some sampleLobbyRoom ∧
    isLobbySupported sampleModState = true ∧
    denyAccess sampleModState "res123"
      = CallResult.returns (sampleModState, [Action.kick "room1@lobby.example/res123"]) ∧
    approveAccess sampleModState "res123"
      = CallResult.returns
          (sampleModState,
           [Action.msgInvite "room1@conference.example" "alice@example.com/res123"]) ∧
    denyAccess sampleNonModState "res123" = CallResult.returns (sampleNonModState, []) := by
  refine ⟨rfl, rfl, ?_, ?_, ?_⟩
  · exact ((lobby_C1_deny_approve sampleModState sampleLobbyRoom "res123" rfl).2
      "room1@lobby.example/res123" ⟨"alice@example.com/res123"⟩ rfl rfl (by decide)).1
  · exact ((lobby_C1_deny_approve sampleModState sampleLobbyRoom "res123" rfl).2
      "room1@lobby.example/res123" ⟨"alice@example.com/res123"⟩ rfl rfl (by decide)).2
  · exact ((lobby_C1_deny_approve sampleNonModState sampleLobbyRoom "res123" rfl).1
      (Or.inl rfl)).1

/-- C9: when the backend configuration has no lobby component address,
isLobbySupported is false, enableLobby rejects at once with no stanza sent
and no listener registered, and denyAccess/approveAccess return without any
action or state change. -/
theorem lobby_C9_unsupported (s : Lobby) (password : Option String)
    (env : EnableEnv) (id : String)
    (h : s.xmpp.lobbyroomComponentAddress = none) :
    isLobbySupported s = false ∧
    enableLobby s password env = ⟨s, [], [], Outcome.rejected "Lobby not supported!"⟩ ∧
    denyAccess s id = CallResult.returns (s, []) ∧
    approveAccess s id = CallResult.returns (s, []) := by
  have hsup : isLobbySupported s = false := by
    simp [isLobbySupported, h, jsTruthy]
  refine ⟨hsup, ?_, ?_, ?_⟩
  · simp [enableLobby, hsup]
  · simp [denyAccess, hsup]
  · simp [approveAccess, hsup]

/-- Witness for C9 at a controller on a backend with no lobby component
address. -/
theorem lobby_C9_witness :
    (⟨⟨none⟩, ⟨"room1@conference.example", true, true⟩, none⟩ : Lobby).xmpp.lobbyroomComponentAddress
        = none ∧
    isLobbySupported ⟨⟨none⟩, ⟨"room1@conference.example", true, true⟩, none⟩ = false ∧
    denyAccess ⟨⟨none⟩, ⟨"room1@conference.example", true, true⟩, none⟩ "res123"
      = CallResult.returns (⟨⟨none⟩, ⟨"room1@conference.example", true, true⟩, none⟩, []) := by
  refine ⟨rfl, ?_, ?_⟩
  · exact (lobby_C9_unsupported ⟨⟨none⟩, ⟨"room1@conference.example", true, true⟩, none⟩
      none ⟨IQResponse.result ⟨[]⟩, IQResponse.result (), ⟨Outcome.resolved, Outcome.resolved⟩⟩
      "res123" rfl).1
  · exact (lobby_C9_unsupported ⟨⟨none⟩, ⟨"room1@conference.example", true, true⟩, none⟩
      none ⟨IQResponse.result ⟨[]⟩, IQResponse.result (), ⟨Outcome.resolved, Outcome.resolved⟩⟩
      "res123" rfl).2.2.1

/-- C10: with lobby supported and a moderator caller but no lobby room
instance (joinLobbyRoom never ran, the field is still undefined), both
denyAccess and approveAccess throw — the member lookup dereferences the
absent lobby room — instead of returning silently. -/
theorem lobby_C10_throws (s : Lobby) (id : String)
    (hroom : s.lobbyRoom = none)
    (hsup : isLobbySupported s = true)
    (hmod : s.mainRoom.moderator = true) :
    (∃ e, denyAccess s id = CallResult.throws e) ∧
    (∃ e, approveAccess s id = CallResult.throws e) := by
  constructor
  · refine ⟨"TypeError: this.lobbyRoom is undefined", ?_⟩
    simp [denyAccess, hsup, hmod, hroom]
  · refine ⟨"TypeError: this.lobbyRoom is undefined", ?_⟩
    simp [approveAccess, hsup, hmod, hroom]

/-- Witness for C10 at a supported, moderator-held controller that never
joined a lobby room. -/
theorem lobby_C10_witness :
    (⟨sampleXmpp, ⟨"room1@conference.example", true, true⟩, none⟩ : Lobby).lobbyRoom = none ∧
    isLobbySupported ⟨sampleXmpp, ⟨"room1@conference.example", true, true⟩, none⟩ = true ∧
    (∃ e, denyAccess ⟨sampleXmpp, ⟨"room1@conference.example", true, true⟩, none⟩ "res123"
        = CallResult.throws e) := by
  refine ⟨rfl, rfl, ?_⟩
  exact (lobby_C10_throws ⟨sampleXmpp, ⟨"room1@conference.example", true, true⟩, none⟩
    "res123" rfl rfl rfl).1

/-- C2: on a supported backend whose configuration form contains the
members-only field, enableLobby sends a configuration submission whose form
sets muc#roomconfig_membersonly to true and contains a
muc#roomconfig_lobbypassword field exactly when a password argument was
supplied (a JS-truthy, i.e. non-empty, string), carrying that password; and
when the submission succeeds, joinLobbyRoom is invoked (with no arguments)
and enableLobby's resulting state, listeners and settled outcome are exactly
those of that join. -/
theorem lobby_C2_enable (s : Lobby) (password : Option String)
    (env : EnableEnv) (form : MucOwnerForm)
    (hsup : isLobbySupported s = true)
    (hq : env.queryResponse = IQResponse.result form)
    (hf : form.fields.contains "muc#roomconfig_membersonly" = true) :
    (Action.iqConfigSubmit s.mainRoom.roomjid (enableLobbyFormFields password)
        ∈ (enableLobby s password env).actions) ∧
    (("muc#roomconfig_membersonly", "true") ∈ enableLobbyFormFields password) ∧
    ((enableLobbyFormFields password).any
        (fun f => f.1 == "muc#roomconfig_lobbypassword") = jsTruthy password) ∧
    (∀ p, password = some p → p ≠ "" →
        ("muc#roomconfig_lobbypassword", p) ∈ enableLobbyFormFields password) ∧
    (env.submitResponse = IQResponse.result () →
      (enableLobby s password env).actions
          = Action.iqConfigQuery s.mainRoom.roomjid
            :: Action.iqConfigSubmit s.mainRoom.roomjid (enableLobbyFormFields password)
            :: (joinLobbyRoom s none none none env.joinEnv).actions ∧
      (enableLobby s password env).state
          = (joinLobbyRoom s none none none env.joinEnv).state ∧
      (enableLobby s password env).listeners
          = (joinLobbyRoom s none none none env.joinEnv).listeners ∧
      (enableLobby s password env).outcome
          = (joinLobbyRoom s none none none env.joinEnv).outcome) := by
  have hf2 : "muc#roomconfig_membersonly" ∈ form.fields := by simpa using hf
  refine ⟨?_, ?_, ?_, ?_, ?_⟩
  · cases hsub : env.submitResponse with
    | result u => simp [enableLobby, hsup, hq, hf2, hsub]
    | iqError e => simp [enableLobby, hsup, hq, hf2, hsub]
  · simp [enableLobbyFormFields]
  · cases password with
    | none => simp [enableLobbyFormFields, jsTruthy]
    | some p =>
      by_cases hp : p.isEmpty <;>
        simp [enableLobbyFormFields, jsTruthy, hp]
  · intro p hp hne
    subst hp
    have hpe : p.isEmpty = false := by
      rw [Bool.eq_false_iff]
      intro hemp
      exact hne ((String.isEmpty_iff p).mp hemp)
    simp [enableLobbyFormFields, jsTruthy, hpe]
  · intro hsub
    refine ⟨?_, ?_, ?_, ?_⟩ <;> simp [enableLobby, hsup, hq, hf2, hsub]

/-- Witness for C2 at the spec's scenario: a joined moderator enabling lobby
with the password "xyz789" on room "room1@conference.example". -/
theorem lobby_C2_witness :
    isLobbySupported sampleModState = true ∧
    (⟨IQResponse.result ⟨["muc#roomconfig_membersonly"]⟩, IQResponse.result (),
        ⟨Outcome.resolved, Outcome.resolved⟩⟩ : EnableEnv).queryResponse
      = IQResponse.result ⟨["muc#roomconfig_membersonly"]⟩ ∧
    (MucOwnerForm.mk ["muc#roomconfig_membersonly"]).fields.contains
        "muc#roomconfig_membersonly" = true ∧
    ("muc#roomconfig_membersonly", "true") ∈ enableLobbyFormFields (some "xyz789") ∧
    ("muc#roomconfig_lobbypassword", "xyz789") ∈ enableLobbyFormFields (some "xyz789") := by
  refine ⟨rfl, rfl, by decide, ?_, ?_⟩
  · exact (lobby_C2_enable sampleModState (some "xyz789")
      ⟨IQResponse.result ⟨["muc#roomconfig_membersonly"]⟩, IQResponse.result (),
        ⟨Outcome.resolved, Outcome.resolved⟩⟩
      ⟨["muc#roomconfig_membersonly"]⟩ rfl rfl (by decide)).2.1
  · exact (lobby_C2_enable sampleModState (some "xyz789")
      ⟨IQResponse.result ⟨["muc#roomconfig_membersonly"]⟩, IQResponse.result (),
        ⟨Outcome.resolved, Outcome.resolved⟩⟩
      ⟨["muc#roomconfig_membersonly"]⟩ rfl rfl (by decide)).2.2.2.1
      "xyz789" rfl (by decide)

/-- C3: on a supported backend, when the queried configuration form lacks
the members-only field, enableLobby rejects with the members-only
configuration error, its only action is the configuration query (so no
configuration submission is ever sent) and the controller state is
unchanged. -/
theorem lobby_C3_config_error (s : Lobby) (password : Option String)
    (env : EnableEnv) (form : MucOwnerForm)
    (hsup : isLobbySupported s = true)
    (hq : env.queryResponse = IQResponse.result form)
    (hf : form.fields.contains "muc#roomconfig_membersonly" = false) :
    enableLobby s password env
      = ⟨s, [Action.iqConfigQuery s.mainRoom.roomjid], [],
          Outcome.rejected "Setting members only room not supported!"⟩ ∧
    ∀ d fl, Action.iqConfigSubmit d fl ∉ (enableLobby s password env).actions := by
  have hf2 : "muc#roomconfig_membersonly" ∉ form.fields := by simpa using hf
  have hmain : enableLobby s password env
      = ⟨s, [Action.iqConfigQuery s.mainRoom.roomjid], [],
          Outcome.rejected "Setting members only room not supported!"⟩ := by
    simp [enableLobby, hsup, hq, hf2]
  refine ⟨hmain, ?_⟩
  intro d fl
  rw [hmain]
  simp

/-- Witness for C3 at a concrete form lacking the members-only field. -/
theorem lobby_C3_witness :
    isLobbySupported sampleModState = true ∧
    (MucOwnerForm.mk ["muc#roomconfig_roomname"]).fields.contains
        "muc#roomconfig_membersonly" = false ∧
    enableLobby sampleModState (some "xyz789")
        ⟨IQResponse.result ⟨["muc#roomconfig_roomname"]⟩, IQResponse.result (),
          ⟨Outcome.resolved, Outcome.resolved⟩⟩
      = ⟨sampleModState, [Action.iqConfigQuery "room1@conference.example"], [],
          Outcome.rejected "Setting members only room not supported!"⟩ := by
  refine ⟨rfl, by decide, ?_⟩
  exact (lobby_C3_config_error sampleModState (some "xyz789")
    ⟨IQResponse.result ⟨["muc#roomconfig_roomname"]⟩, IQResponse.result (),
      ⟨Outcome.resolved, Outcome.resolved⟩⟩
    ⟨["muc#roomconfig_roomname"]⟩ rfl rfl (by decide)).1

/-- C4: when a (truthy) shared password is supplied and the caller is not a
moderator (the code's test `mainRoom.joined && mainRoom.isModerator()` is
false), joinLobbyRoom joins the main room directly with that password, never
creates a lobby room instance, registers no listener, leaves the controller
state unchanged, and settles exactly as the main-room join does. -/
theorem lobby_C4_fast_path (s : Lobby) (displayName email password : Option String)
    (env : JoinEnv)
    (hpw : jsTruthy password = true)
    (hmod : (s.mainRoom.joined && s.mainRoom.moderator) = false) :
    joinLobbyRoom s displayName email password env
      = ⟨s, [Action.mainRoomJoin password], [], env.mainJoinResult⟩ ∧
    ∀ rn cd d1 d2, Action.createRoom rn cd d1 d2
        ∉ (joinLobbyRoom s displayName email password env).actions := by
  have hmain : joinLobbyRoom s displayName email password env
      = ⟨s, [Action.mainRoomJoin password], [], env.mainJoinResult⟩ := by
    simp [joinLobbyRoom, hpw, hmod]
  refine ⟨hmain, ?_⟩
  intro rn cd d1 d2
  rw [hmain]
  simp

/-- Witness for C4: a waiting participant supplying the shared password
"xyz789" joins the main room directly. -/
theorem lobby_C4_witness :
    jsTruthy (some "xyz789") = true ∧
    (waitingStart.mainRoom.joined && waitingStart.mainRoom.moderator) = false ∧
    joinLobbyRoom waitingStart none none (some "xyz789")
        ⟨Outcome.resolved, Outcome.resolved⟩
      = ⟨waitingStart, [Action.mainRoomJoin (some "xyz789")], [], Outcome.resolved⟩ := by
  refine ⟨by decide, rfl, ?_⟩
  exact (lobby_C4_fast_path waitingStart none none (some "xyz789")
    ⟨Outcome.resolved, Outcome.resolved⟩ (by decide) rfl).1

/-- C5 counterexample: a waiting participant joins the lobby and is then
kicked (a terminal "denied" outcome); exactly one denied-access notification
is emitted, yet the controller's lobbyRoom field still holds the lobby room
reference afterwards.  Moreover a joinLobbyRoom call whose join is rejected
— never successful — also leaves lobbyRoom non-null, so lobbyRoom is not
"non-null only between a successful joinLobbyRoom call and a terminal
outcome". -/
theorem lobby_C5_counterexample :
    (kickedHandler (joinLobbyRoom waitingStart (some "Alice") none none
        ⟨Outcome.resolved, Outcome.resolved⟩).state true).events
      = [MainEvent.deniedAccess] ∧
    (kickedHandler (joinLobbyRoom waitingStart (some "Alice") none none
        ⟨Outcome.resolved, Outcome.resolved⟩).state true).state.lobbyRoom
      ≠ none ∧
    (joinLobbyRoom waitingStart none none none
        ⟨Outcome.resolved, Outcome.rejected "join failed"⟩).outcome
      = Outcome.rejected "join failed" ∧
    (joinLobbyRoom waitingStart none none none
        ⟨Outcome.resolved, Outcome.rejected "join failed"⟩).state.lobbyRoom
      ≠ none := by
  decide

/-- C5 amended: a waiting participant observing a kick of its own presence
emits exactly one denied-access notification on the main room's stream and
calls clean() on the lobby room, but no controller field is reassigned — the
lobbyRoom field retains its reference; a kick of another's presence does
nothing; and every joinLobbyRoom call that does not take the shared-password
fast path sets lobbyRoom synchronously, before and regardless of the join's
outcome, so lobbyRoom is non-null from that point on rather than only
between a successful join and a terminal outcome. -/
theorem lobby_C5_amended (s : Lobby) :
    kickedHandler s true
      = ⟨s, [Action.lobbyRoomClean], [MainEvent.deniedAccess]⟩ ∧
    kickedHandler s false = ⟨s, [], []⟩ ∧
    (∀ dn em pw env,
      (jsTruthy pw && !(s.mainRoom.joined && s.mainRoom.moderator)) = false →
      (joinLobbyRoom s dn em pw env).state.lobbyRoom = some ⟨[]⟩) := by
  refine ⟨rfl, rfl, ?_⟩
  intro dn em pw env h
  cases hpw : jsTruthy pw
  · simp [joinLobbyRoom, hpw]
  · cases hjm : (s.mainRoom.joined && s.mainRoom.moderator)
    · rw [hpw, hjm] at h
      simp at h
    · have h12 : s.mainRoom.joined = true ∧ s.mainRoom.moderator = true := by
        simpa using hjm
      simp [joinLobbyRoom, hpw, h12.1, h12.2]

/-- Witness for C5 amended at a concrete waiting participant's state. -/
theorem lobby_C5_witness :
    kickedHandler waitingStart true
      = ⟨waitingStart, [Action.lobbyRoomClean], [MainEvent.deniedAccess]⟩ ∧
    (jsTruthy none
        && !(waitingStart.mainRoom.joined && waitingStart.mainRoom.moderator)) = false ∧
    (joinLobbyRoom waitingStart (some "Alice") none none
        ⟨Outcome.resolved, Outcome.resolved⟩).state.lobbyRoom = some ⟨[]⟩ := by
  refine ⟨(lobby_C5_amended waitingStart).1, by decide, ?_⟩
  exact (lobby_C5_amended waitingStart).2.2 (some "Alice") none none
    ⟨Outcome.resolved, Outcome.resolved⟩ (by decide)

/-- C6: the invite-message listener of a waiting participant, given an
invite whose room JID equals the main room's JID, joins the main room and
then leaves the lobby room, and its behaviour is identical for every
possible result of the leave (the leave promise's outcome is discarded, so a
failed leave neither propagates nor undoes the join); an invite naming any
other room JID does nothing. -/
theorem lobby_C6_invite (s : Lobby) (roomJid sender txt : String)
    (leaveResult : Outcome) :
    (roomJid = s.mainRoom.roomjid →
      inviteMessageHandler s roomJid sender txt leaveResult
        = ⟨s, [Action.mainRoomJoin none, Action.lobbyRoomLeave], []⟩) ∧
    (roomJid ≠ s.mainRoom.roomjid →
      inviteMessageHandler s roomJid sender txt leaveResult = ⟨s, [], []⟩) ∧
    (∀ other, inviteMessageHandler s roomJid sender txt leaveResult
        = inviteMessageHandler s roomJid sender txt other) := by
  refine ⟨?_, ?_, ?_⟩
  · intro h
    simp [inviteMessageHandler, h]
  · intro h
    simp [inviteMessageHandler, beq_iff_eq, h]
  · intro other
    rfl

/-- Witness for C6: a matching invite (with a failing leave) and a
non-matching invite at a concrete waiting participant's state. -/
theorem lobby_C6_witness :
    ("room1@conference.example" = waitingStart.mainRoom.roomjid) ∧
    inviteMessageHandler waitingStart "room1@conference.example" "sender" "text"
        (Outcome.rejected "leave failed")
      = ⟨waitingStart, [Action.mainRoomJoin none, Action.lobbyRoomLeave], []⟩ ∧
    ("other@conference.example" ≠ waitingStart.mainRoom.roomjid) ∧
    inviteMessageHandler waitingStart "other@conference.example" "sender" "text"
        Outcome.resolved
      = ⟨waitingStart, [], []⟩ := by
  refine ⟨rfl, ?_, by decide, ?_⟩
  · exact (lobby_C6_invite waitingStart "room1@conference.example" "sender" "text"
      (Outcome.rejected "leave failed")).1 rfl
  · exact (lobby_C6_invite waitingStart "other@conference.example" "sender" "text"
      Outcome.resolved).2.1 (by decide)

/-- C7: a moderator's joinLobbyRoom call registers the e-mail presence
listener and the member-joined listener; a subsequent occupant join in the
lobby produces exactly one lobby-member-joined notification carrying the
occupant's room-local resource, the nickname and the optional avatar, and an
e-mail presence update produces exactly one lobby-member-updated
notification carrying the occupant's room-local resource and the e-mail. -/
theorem lobby_C7_moderator_notifications (s : Lobby)
    (occupantJid r nick email : String) (identity : Option Identity)
    (dn em pw : Option String) (env : JoinEnv)
    (hmod : (s.mainRoom.joined && s.mainRoom.moderator) = true)
    (hres : getResourceFromJid occupantJid = some r) :
    (Listener.presenceEmail ∈ (joinLobbyRoom s dn em pw env).listeners ∧
     Listener.mucMemberJoined ∈ (joinLobbyRoom s dn em pw env).listeners) ∧
    dispatchMemberJoined s occupantJid nick identity
      = ⟨s, [],
          [MainEvent.lobbyMemberJoined (some r) nick (identityAvatar identity)]⟩ ∧
    dispatchEmailPresence s occupantJid email
      = ⟨s, [], [MainEvent.lobbyMemberUpdated (some r) email]⟩ := by
  refine ⟨?_, ?_, ?_⟩
  · constructor <;> simp [joinLobbyRoom, hmod]
  · simp [dispatchMemberJoined, memberJoinedHandler, hres]
  · simp [dispatchEmailPresence, emailPresenceHandler, hres]

/-- Witness for C7: the moderator state observing occupant
"room1@lobby.example/res123" join with nickname "Alice" and then update the
e-mail "alice@mail.example". -/
theorem lobby_C7_witness :
    (sampleModState.mainRoom.joined && sampleModState.mainRoom.moderator) = true ∧
    getResourceFromJid "room1@lobby.example/res123" = some "res123" ∧
    dispatchMemberJoined sampleModState "room1@lobby.example/res123" "Alice"
        (some ⟨some "avatar-url"⟩)
      = ⟨sampleModState, [],
          [MainEvent.lobbyMemberJoined (some "res123") "Alice" (some "avatar-url")]⟩ ∧
    dispatchEmailPresence sampleModState "room1@lobby.example/res123" "alice@mail.example"
      = ⟨sampleModState, [],
          [MainEvent.lobbyMemberUpdated (some "res123") "alice@mail.example"]⟩ := by
  refine ⟨rfl, by decide, ?_, ?_⟩
  · exact (lobby_C7_moderator_notifications sampleModState "room1@lobby.example/res123"
      "res123" "Alice" "alice@mail.example" (some ⟨some "avatar-url"⟩) none none none
      ⟨Outcome.resolved, Outcome.resolved⟩ rfl (by decide)).2.1
  · exact (lobby_C7_moderator_notifications sampleModState "room1@lobby.example/res123"
      "res123" "Alice" "alice@mail.example" (some ⟨some "avatar-url"⟩) none none none
      ⟨Outcome.resolved, Outcome.resolved⟩ rfl (by decide)).2.2

/-- C8: for a non-moderator joinLobbyRoom call that takes the lobby path,
when the lobby join resolves, a second presence carrying the e-mail (the
e-mail command set followed by sendPresence, after the join call) is sent
exactly when a (truthy, i.e. non-empty) e-mail argument was supplied — in
particular, with a display name but no e-mail no sendPresence occurs — and
no sendPresence occurs either when the join is rejected. -/
theorem lobby_C8_second_presence (s : Lobby) (dn em pw : Option String)
    (env : JoinEnv)
    (hmod : (s.mainRoom.joined && s.mainRoom.moderator) = false)
    (hpw : jsTruthy pw = false) :
    (env.lobbyJoinEvent = Outcome.resolved →
      (∀ e, em = some e → e ≠ "" →
        ∃ pre, (joinLobbyRoom s dn em pw env).actions
          = pre ++ [Action.removeFromPresence "email",
              Action.addToPresence "email" e, Action.sendPresence]) ∧
      (jsTruthy em = false →
        Action.sendPresence ∉ (joinLobbyRoom s dn em pw env).actions)) ∧
    (∀ msg, env.lobbyJoinEvent = Outcome.rejected msg →
      Action.sendPresence ∉ (joinLobbyRoom s dn em pw env).actions) := by
  constructor
  · intro hjoin
    constructor
    · intro e hem hne
      subst hem
      have hpe : e.isEmpty = false := by
        rw [Bool.eq_false_iff]
        intro hemp
        exact hne ((String.isEmpty_iff e).mp hemp)
      have hemt : jsTruthy (some e) = true := by simp [jsTruthy, hpe]
      cases hdn : jsTruthy dn
      · refine ⟨[Action.createRoom (getNodeFromJid s.mainRoom.roomjid)
            s.xmpp.lobbyroomComponentAddress true true, Action.lobbyRoomJoin], ?_⟩
        simp [joinLobbyRoom, hpw, hmod, hjoin, hemt, hdn, EMAIL_COMMAND]
      · refine ⟨[Action.createRoom (getNodeFromJid s.mainRoom.roomjid)
            s.xmpp.lobbyroomComponentAddress true true,
            Action.removeFromPresence "nick",
            Action.addToPresence "nick" (dn.getD ""),
            Action.lobbyRoomJoin], ?_⟩
        simp [joinLobbyRoom, hpw, hmod, hjoin, hemt, hdn, EMAIL_COMMAND]
    · intro hemf
      cases hdn : jsTruthy dn <;>
        simp [joinLobbyRoom, hpw, hmod, hjoin, hemf, hdn]
  · intro msg hjoin
    cases hdn : jsTruthy dn <;>
      simp [joinLobbyRoom, hpw, hmod, hjoin, hdn]

/-- Witness for C8: the spec's scenario — non-moderator joins with display
name "Alice" and no e-mail, and no sendPresence happens — together with a
join carrying an e-mail, after which the e-mail presence is re-sent. -/
theorem lobby_C8_witness :
    (waitingStart.mainRoom.joined && waitingStart.mainRoom.moderator) = false ∧
    jsTruthy (none : Option String) = false ∧
    Action.sendPresence ∉ (joinLobbyRoom waitingStart (some "Alice") none none
        ⟨Outcome.resolved, Outcome.resolved⟩).actions ∧
    (∃ pre, (joinLobbyRoom waitingStart (some "Alice") (some "alice@mail.example") none
        ⟨Outcome.resolved, Outcome.resolved⟩).actions
      = pre ++ [Action.removeFromPresence "email",
          Action.addToPresence "email" "alice@mail.example", Action.sendPresence]) := by
  refine ⟨rfl, rfl, ?_, ?_⟩
  · exact ((lobby_C8_second_presence waitingStart (some "Alice") none none
      ⟨Outcome.resolved, Outcome.resolved⟩ rfl rfl).1 rfl).2 rfl
  · exact ((lobby_C8_second_presence waitingStart (some "Alice")
      (some "alice@mail.example") none
      ⟨Outcome.resolved, Outcome.resolved⟩ rfl rfl).1 rfl).1
      "alice@mail.example" rfl (by decide)

end LobbyModel
